import Mathlib

/-!
Shallow embedding of the secret cache & retrieval adapter
(`src/config/secrets.js`), the Express error-handling middleware
(`src/middleware/errorHandler.js`) and the secrets router
(`src/routes/secrets.js`) of the aws-secret-test repository.

Modelling conventions:
* JavaScript's `Map` cache is an association list `Cache V`;
  `Map.get`, `Map.set`, `Map.delete`, `Map.clear` become `cacheGet`,
  `cacheSet`, `clearSecretCache`, `clearCache`.
* Timestamps (`Date.now()`) are natural numbers.  The freshness test
  `Date.now() - cached.timestamp < CACHE_TTL` is `now - t < CACHE_TTL`
  over `Nat` (truncated subtraction agrees with the JS comparison: a
  "future" timestamp is fresh in both).
* `JSON.parse` and base64 decoding are opaque library calls, so the
  adapter is parameterised over `parse : String → Option J` (failure =
  thrown exception) and `b64 : String → String`.
* The upstream `client.send` is modelled by its outcome: an
  `Except UpstreamError GetSecretValueResponse` supplied as input.
* JavaScript truthiness of an optional string field (`if
  (response.SecretString)`) is `strOptTruthy`; truthiness of a
  generic body field is `jsTruthy` on a small JS value type.
-/

namespace SecretsAdapter

/-- A decoded secret value: either a parsed JSON structure or a raw
string (the implicit JSON-or-string duck typing of the source). -/
inductive SecretVal (J : Type) where
  | parsed (j : J)
  | raw (s : String)
deriving DecidableEq, Repr

/-- One cache entry, `{ secret, timestamp }` in the source. -/
structure CacheEntry (V : Type) where
  secret : V
  timestamp : Nat
deriving DecidableEq, Repr

/-- The module-level `secretCache` Map, as an association list. -/
abbrev Cache (V : Type) := List (String × CacheEntry V)

/-- `const CACHE_TTL = 5 * 60 * 1000` (5 minutes in milliseconds). -/
def CACHE_TTL : Nat := 5 * 60 * 1000

/-- `secretCache.get(name)`. -/
def cacheGet {V : Type} (c : Cache V) (n : String) : Option (CacheEntry V) :=
  (c.find? (fun p => p.1 == n)).map (fun p => p.2)

/-- `secretCache.set(name, entry)` — overwrites any previous binding. -/
def cacheSet {V : Type} (c : Cache V) (n : String) (e : CacheEntry V) : Cache V :=
  (n, e) :: c.filter (fun p => p.1 != n)

/-- `clearCache()` — `secretCache.clear()`. -/
def clearCache {V : Type} (_c : Cache V) : Cache V := []

/-- `clearSecretCache(name)` — `secretCache.delete(name)`. -/
def clearSecretCache {V : Type} (c : Cache V) (n : String) : Cache V :=
  c.filter (fun p => p.1 != n)

/-- The upstream `GetSecretValue` response, with its two optional
payload fields. -/
structure GetSecretValueResponse where
  SecretString : Option String
  SecretBinary : Option String
deriving DecidableEq, Repr

/-- An upstream (or internal) JavaScript error, as seen by the `catch`
block: its `name` and `message`. -/
structure UpstreamError where
  name : String
  message : String
deriving DecidableEq, Repr

/-- JS truthiness of an optional string field: `undefined` and `""`
are falsy, a non-empty string is truthy. -/
def strOptTruthy : Option String → Bool
  | none => false
  | some s => s != ""

/-- Try `JSON.parse`, fall back to the raw string — the
`try { JSON.parse } catch { keep string }` idiom of the source. -/
def jsonOrRaw {J : Type} (parse : String → Option J) (s : String) : SecretVal J :=
  match parse s with
  | some j => SecretVal.parsed j
  | none => SecretVal.raw s

/-- The decoding block of `getSecret`: textual payload first (JSON or
raw), else binary payload (base64-decode, then JSON or raw), else the
`new Error('Secret value is empty')` throw. -/
def decodeResponse {J : Type} (parse : String → Option J) (b64 : String → String)
    (r : GetSecretValueResponse) : Except String (SecretVal J) :=
  if strOptTruthy r.SecretString then
    Except.ok (jsonOrRaw parse (r.SecretString.getD ""))
  else if strOptTruthy r.SecretBinary then
    Except.ok (jsonOrRaw parse (b64 (r.SecretBinary.getD "")))
  else
    Except.error "Secret value is empty"

/-- The `catch` block of `getSecret`: map an upstream error to the
adapter's user-facing message, switching on `error.name`. -/
def mapSecretError (secretName : String) (e : UpstreamError) : String :=
  if e.name = "ResourceNotFoundException" then
    "Secret '" ++ secretName ++ "' not found"
  else if e.name = "AccessDeniedException" then
    "Access denied to secret '" ++ secretName ++ "'. Check IAM role permissions."
  else if e.name = "DecryptionFailureException" then
    "Failed to decrypt secret '" ++ secretName ++ "'"
  else
    "Failed to retrieve secret '" ++ secretName ++ "': " ++ e.message

/-- Outcome of one `getSecret` call: the returned value or thrown
message, the cache after the call, and whether an upstream request was
issued. -/
structure FetchResult (J : Type) where
  result : Except String (SecretVal J)
  cache : Cache (SecretVal J)
  upstreamCalled : Bool
deriving Repr

/-- The cache-miss path of `getSecret`: issue the upstream request,
decode, update the cache on success; wrap any failure (upstream error,
or the internal empty-value `Error`) through the `catch` block. -/
def fetchUpstream {J : Type} (parse : String → Option J) (b64 : String → String)
    (upstream : Except UpstreamError GetSecretValueResponse)
    (secretName : String) (cache : Cache (SecretVal J)) (now : Nat) : FetchResult J :=
  match upstream with
  | Except.error e =>
      { result := Except.error (mapSecretError secretName e)
        cache := cache
        upstreamCalled := true }
  | Except.ok resp =>
      match decodeResponse parse b64 resp with
      | Except.error msg =>
          { result := Except.error (mapSecretError secretName ⟨"Error", msg⟩)
            cache := cache
            upstreamCalled := true }
      | Except.ok v =>
          { result := Except.ok v
            cache := cacheSet cache secretName ⟨v, now⟩
            upstreamCalled := true }

/-- `getSecret(secretName, useCache)`: serve a fresh cached entry when
`useCache` is set, otherwise fetch upstream. -/
def getSecret {J : Type} (parse : String → Option J) (b64 : String → String)
    (upstream : Except UpstreamError GetSecretValueResponse)
    (secretName : String) (useCache : Bool)
    (cache : Cache (SecretVal J)) (now : Nat) : FetchResult J :=
  match (if useCache then cacheGet cache secretName else none) with
  | some cached =>
      if now - cached.timestamp < CACHE_TTL then
        { result := Except.ok cached.secret, cache := cache, upstreamCalled := false }
      else
        fetchUpstream parse b64 upstream secretName cache now
  | none => fetchUpstream parse b64 upstream secretName cache now

/-- The `BatchResult` of `getMultipleSecrets`: `secrets` collects the
successes, `errors` is `undefined` (here `none`) when no name failed. -/
structure BatchResult (J : Type) where
  secrets : List (String × SecretVal J)
  errors : Option (List (String × String))
deriving Repr

/-- The fan-out loop of `getMultipleSecrets`: per name, a success goes
into `results[secretName]`, a failure's message into
`errors[secretName]`.  Each name's outcome is given by `fetch` and is
independent of every other name's. -/
def collectSettled {J : Type} (fetch : String → Except String (SecretVal J)) :
    List String → (List (String × SecretVal J)) × (List (String × String))
  | [] => ([], [])
  | n :: rest =>
      let acc := collectSettled fetch rest
      match fetch n with
      | Except.ok v => ((n, v) :: acc.1, acc.2)
      | Except.error m => (acc.1, (n, m) :: acc.2)

/-- `getMultipleSecrets(secretNames, useCache)`: settle every name,
then return `{ secrets, errors }` with `errors` only when non-empty. -/
def getMultipleSecrets {J : Type} (fetch : String → Except String (SecretVal J))
    (secretNames : List String) : BatchResult J :=
  let acc := collectSettled fetch secretNames
  { secrets := acc.1
    errors := if acc.2.length > 0 then some acc.2 else none }

end SecretsAdapter

namespace HttpBoundary

open SecretsAdapter

/-- A thrown JavaScript `Error` as the middleware sees it: `message`,
and the optional `statusCode` / `status` fields (absent on a plain
`new Error(msg)`). -/
structure JsError where
  message : String
  statusCode : Option Nat
  status : Option Nat
deriving DecidableEq, Repr

/-- `new Error(msg)` — carries no status information. -/
def plainError (msg : String) : JsError :=
  { message := msg, statusCode := none, status := none }

/-- JS `a || b` on an optional number: `undefined` and `0` are falsy. -/
def jsOrNat (a : Option Nat) (b : Nat) : Nat :=
  match a with
  | some n => if n = 0 then b else n
  | none => b

/-- JS `s || d` on a string: the empty string is falsy. -/
def jsOrStr (s : String) (d : String) : String :=
  if s = "" then d else s

/-- `errorHandler(err, req, res, next)`: the status code and message of
the JSON error envelope it sends
(`err.statusCode || err.status || 500`, `err.message || '...'`). -/
def errorHandler (err : JsError) : Nat × String :=
  (jsOrNat err.statusCode (jsOrNat err.status 500),
   jsOrStr err.message "Internal Server Error")

/-- A JavaScript value of a parsed JSON request-body field, enough to
express the `!names || !Array.isArray(names) || names.length === 0`
guard. -/
inductive JsVal where
  | undefinedV
  | nullV
  | boolV (b : Bool)
  | numV (n : Int)
  | strV (s : String)
  | arrV (xs : List String)
  | objV
deriving DecidableEq, Repr

/-- JS truthiness of a `JsVal`. -/
def jsTruthy : JsVal → Bool
  | JsVal.undefinedV => false
  | JsVal.nullV => false
  | JsVal.boolV b => b
  | JsVal.numV n => n != 0
  | JsVal.strV s => s != ""
  | JsVal.arrV _ => true
  | JsVal.objV => true

/-- `Array.isArray`. -/
def isArray : JsVal → Bool
  | JsVal.arrV _ => true
  | _ => false

/-- `names.length` when `names` is an array (only consulted after the
`Array.isArray` check succeeds). -/
def arrLength : JsVal → Nat
  | JsVal.arrV xs => xs.length
  | _ => 0

/-- What the `POST /secrets/batch` handler does before any response is
serialized: either an early `400` envelope, or a call into the
adapter's batch fetch. -/
inductive BatchAction where
  | badRequest (statusCode : Nat) (message : String)
  | callAdapter (names : List String) (useCache : Bool)
deriving DecidableEq, Repr

/-- The validation guard and dispatch of `router.post('/batch')`:
`const { names, useCache = true } = req.body;` then the
`!names || !Array.isArray(names) || names.length === 0` check. -/
def batchHandler (names : JsVal) (useCache : Bool) : BatchAction :=
  if !jsTruthy names || !isArray names || arrLength names == 0 then
    BatchAction.badRequest 400
      "Request body must include a \"names\" array with at least one secret name"
  else
    BatchAction.callAdapter (arrElems names) useCache
where
  arrElems : JsVal → List String
    | JsVal.arrV xs => xs
    | _ => []

/-- `const useCache = req.query.useCache !== 'false';` in
`router.get('/:name')`; the query parameter is `none` when absent. -/
def useCacheOfQuery (q : Option String) : Bool :=
  q != some "false"

end HttpBoundary

namespace SecretsAdapter

/-! ### Helper lemmas about the adapter -/

theorem fetchUpstream_called {J : Type} (parse : String → Option J) (b64 : String → String)
    (up : Except UpstreamError GetSecretValueResponse) (n : String)
    (c : Cache (SecretVal J)) (t : Nat) :
    (fetchUpstream parse b64 up n c t).upstreamCalled = true := by
  unfold fetchUpstream
  split
  · rfl
  · split <;> rfl

theorem fetchUpstream_error_cache {J : Type} (parse : String → Option J) (b64 : String → String)
    (up : Except UpstreamError GetSecretValueResponse) (n : String)
    (c : Cache (SecretVal J)) (t : Nat) (msg : String)
    (h : (fetchUpstream parse b64 up n c t).result = Except.error msg) :
    (fetchUpstream parse b64 up n c t).cache = c := by
  unfold fetchUpstream at *
  split at h
  · rfl
  · split at h
    · simp_all
    · simp_all

theorem cacheGet_cacheSet {V : Type} (c : Cache V) (n : String) (e : CacheEntry V) :
    cacheGet (cacheSet c n e) n = some e := by
  simp [cacheGet, cacheSet, List.find?]

theorem fetchUpstream_ok_cache {J : Type} (parse : String → Option J) (b64 : String → String)
    (up : Except UpstreamError GetSecretValueResponse) (n : String)
    (c : Cache (SecretVal J)) (t : Nat) (v : SecretVal J)
    (h : (fetchUpstream parse b64 up n c t).result = Except.ok v) :
    (fetchUpstream parse b64 up n c t).cache = cacheSet c n ⟨v, t⟩ := by
  unfold fetchUpstream at *
  split at h
  · simp_all
  · split at h
    · simp_all
    · simp_all

theorem getSecret_false_eq {J : Type} (parse : String → Option J) (b64 : String → String)
    (up : Except UpstreamError GetSecretValueResponse) (n : String)
    (c : Cache (SecretVal J)) (t : Nat) :
    getSecret parse b64 up n false c t = fetchUpstream parse b64 up n c t := rfl

theorem getSecret_called_ok_cache {J : Type} (parse : String → Option J) (b64 : String → String)
    (up : Except UpstreamError GetSecretValueResponse) (n : String) (u : Bool)
    (c : Cache (SecretVal J)) (t : Nat) (v : SecretVal J)
    (h1 : (getSecret parse b64 up n u c t).upstreamCalled = true)
    (h2 : (getSecret parse b64 up n u c t).result = Except.ok v) :
    (getSecret parse b64 up n u c t).cache = cacheSet c n ⟨v, t⟩ := by
  unfold getSecret at h1 h2 ⊢
  rcases hg : (if u then cacheGet c n else none) with _ | cached
  · simp only [hg] at h1 h2 ⊢
    exact fetchUpstream_ok_cache parse b64 up n c t v h2
  · simp only [hg] at h1 h2 ⊢
    by_cases hf : t - cached.timestamp < CACHE_TTL
    · simp [hf] at h1
    · simp only [if_neg hf] at h2 ⊢
      exact fetchUpstream_ok_cache parse b64 up n c t v h2

theorem getSecret_hit {J : Type} (parse : String → Option J) (b64 : String → String)
    (up : Except UpstreamError GetSecretValueResponse) (n : String)
    (c : Cache (SecretVal J)) (t : Nat) (e : CacheEntry (SecretVal J))
    (hg : cacheGet c n = some e) (hf : t - e.timestamp < CACHE_TTL) :
    getSecret parse b64 up n true c t =
      { result := Except.ok e.secret, cache := c, upstreamCalled := false } := by
  unfold getSecret
  simp only [if_true, hg, hf, if_pos]

theorem getSecret_stale {J : Type} (parse : String → Option J) (b64 : String → String)
    (up : Except UpstreamError GetSecretValueResponse) (n : String)
    (c : Cache (SecretVal J)) (t : Nat) (e : CacheEntry (SecretVal J))
    (hg : cacheGet c n = some e) (hf : ¬ (t - e.timestamp < CACHE_TTL)) :
    getSecret parse b64 up n true c t = fetchUpstream parse b64 up n c t := by
  unfold getSecret
  simp only [if_true, hg, hf, if_neg, if_false]

end SecretsAdapter

open SecretsAdapter HttpBoundary

/-! ### Claim theorems -/

/-- C2: if a fetch performed an upstream call at time `T` and
succeeded with value `v`, then a later `fetch(name, useCache=true)` on
the resulting cache at time `T'` with `T' - T < CACHE_TTL` returns the
identical value `v` with no upstream call, while with
`CACHE_TTL ≤ T' - T` it performs a new upstream call. -/
theorem c2_cache_freshness {J : Type} (parse : String → Option J) (b64 : String → String)
    (up1 up2 : Except UpstreamError GetSecretValueResponse)
    (name : String) (u1 : Bool) (c : Cache (SecretVal J)) (T T' : Nat) (v : SecretVal J)
    (h1 : (getSecret parse b64 up1 name u1 c T).upstreamCalled = true)
    (h2 : (getSecret parse b64 up1 name u1 c T).result = Except.ok v) :
    (T' - T < CACHE_TTL →
      (getSecret parse b64 up2 name true (getSecret parse b64 up1 name u1 c T).cache T').result
          = Except.ok v ∧
      (getSecret parse b64 up2 name true (getSecret parse b64 up1 name u1 c T).cache T').upstreamCalled
          = false) ∧
    (CACHE_TTL ≤ T' - T →
      (getSecret parse b64 up2 name true (getSecret parse b64 up1 name u1 c T).cache T').upstreamCalled
          = true) := by
  have hc : (getSecret parse b64 up1 name u1 c T).cache = cacheSet c name ⟨v, T⟩ :=
    getSecret_called_ok_cache parse b64 up1 name u1 c T v h1 h2
  rw [hc]
  have hget : cacheGet (cacheSet c name ⟨v, T⟩) name = some ⟨v, T⟩ :=
    cacheGet_cacheSet c name ⟨v, T⟩
  constructor
  · intro hfresh
    rw [getSecret_hit parse b64 up2 name _ T' ⟨v, T⟩ hget hfresh]
    exact ⟨rfl, rfl⟩
  · intro hstale
    rw [getSecret_stale parse b64 up2 name _ T' ⟨v, T⟩ hget
      (show ¬ (T' - T < CACHE_TTL) by omega)]
    exact fetchUpstream_called parse b64 up2 name _ T'

/-- C2 witness: a concrete successful fetch at time 0 followed by a
cached fetch at time 1 returning the identical value without an
upstream call. -/
theorem c2_cache_freshness_witness :
    (getSecret (fun _ => (none : Option Unit)) id
        (Except.ok ⟨some "v", none⟩) "db-creds" true [] 0).upstreamCalled = true ∧
    (getSecret (fun _ => (none : Option Unit)) id (Except.error ⟨"X", "x"⟩) "db-creds" true
        (getSecret (fun _ => (none : Option Unit)) id
          (Except.ok ⟨some "v", none⟩) "db-creds" true [] 0).cache 1).result
      = Except.ok (SecretVal.raw "v") := by
  refine ⟨rfl, ?_⟩
  exact ((c2_cache_freshness (fun _ => (none : Option Unit)) id
      (Except.ok ⟨some "v", none⟩) (Except.error ⟨"X", "x"⟩)
      "db-creds" true [] 0 1 (SecretVal.raw "v") rfl rfl).1 (by decide)).1

/-- C4: a failed fetch never mutates the cache — whenever `getSecret`
returns an error (upstream failure or empty payload), the cache after
the call equals the cache before it. -/
theorem c4_failed_fetch_cache_untouched {J : Type} (parse : String → Option J)
    (b64 : String → String) (up : Except UpstreamError GetSecretValueResponse)
    (name : String) (u : Bool) (c : Cache (SecretVal J)) (t : Nat) (msg : String)
    (h : (getSecret parse b64 up name u c t).result = Except.error msg) :
    (getSecret parse b64 up name u c t).cache = c := by
  unfold getSecret at h ⊢
  rcases hg : (if u then cacheGet c name else none) with _ | cached
  · simp only [hg] at h ⊢
    exact fetchUpstream_error_cache parse b64 up name c t msg h
  · simp only [hg] at h ⊢
    by_cases hf : t - cached.timestamp < CACHE_TTL
    · simp [hf] at h
    · simp only [if_neg hf] at h ⊢
      exact fetchUpstream_error_cache parse b64 up name c t msg h

/-- C4 witness: a concrete not-found fetch against a non-empty cache
leaves the cache exactly as it was. -/
theorem c4_failed_fetch_cache_untouched_witness :
    (getSecret (fun _ => (none : Option Unit)) id
        (Except.error ⟨"ResourceNotFoundException", "x"⟩) "B" true
        [("A", ⟨SecretVal.raw "va", 0⟩)] 0).cache
      = [("A", ⟨SecretVal.raw "va", 0⟩)] :=
  c4_failed_fetch_cache_untouched (fun _ => (none : Option Unit)) id
    (Except.error ⟨"ResourceNotFoundException", "x"⟩) "B" true
    [("A", ⟨SecretVal.raw "va", 0⟩)] 0 "Secret 'B' not found" rfl

/-- C7: `fetch(name, useCache=false)` always performs an upstream call
for every cache state, and on success it overwrites the cache entry
for that name with the new value and the current timestamp. -/
theorem c7_cache_bypass {J : Type} (parse : String → Option J) (b64 : String → String)
    (up : Except UpstreamError GetSecretValueResponse)
    (name : String) (c : Cache (SecretVal J)) (now : Nat) :
    (getSecret parse b64 up name false c now).upstreamCalled = true ∧
    (∀ v, (getSecret parse b64 up name false c now).result = Except.ok v →
      cacheGet (getSecret parse b64 up name false c now).cache name = some ⟨v, now⟩) := by
  constructor
  · rw [getSecret_false_eq]
    exact fetchUpstream_called parse b64 up name c now
  · intro v hv
    rw [getSecret_false_eq] at hv ⊢
    rw [fetchUpstream_ok_cache parse b64 up name c now v hv]
    exact cacheGet_cacheSet c name ⟨v, now⟩

/-- C7 witness: bypassing a fresh cache entry still calls upstream and
overwrites the entry with the newly fetched value and timestamp. -/
theorem c7_cache_bypass_witness :
    (getSecret (fun _ => (none : Option Unit)) id (Except.ok ⟨some "new", none⟩)
        "A" false [("A", ⟨SecretVal.raw "old", 5⟩)] 7).upstreamCalled = true ∧
    cacheGet (getSecret (fun _ => (none : Option Unit)) id (Except.ok ⟨some "new", none⟩)
        "A" false [("A", ⟨SecretVal.raw "old", 5⟩)] 7).cache "A"
      = some ⟨SecretVal.raw "new", 7⟩ := by
  have h := c7_cache_bypass (fun _ => (none : Option Unit)) id
    (Except.ok ⟨some "new", none⟩) "A" [("A", ⟨SecretVal.raw "old", 5⟩)] 7
  exact ⟨h.1, h.2 (SecretVal.raw "new") rfl⟩

/-- C3: the decode order of a successful upstream response — a
(non-empty) textual payload is JSON-parsed with raw-text fallback; else
a (non-empty) binary payload is base64-decoded and then JSON-parsed
with raw-text fallback; else the fetch fails with the empty-secret
error, surfaced through the catch block as a wrapped generic failure. -/
theorem c3_decode_order {J : Type} (parse : String → Option J) (b64 : String → String)
    (r : GetSecretValueResponse) (name : String) (c : Cache (SecretVal J)) (now : Nat) :
    (∀ s, r.SecretString = some s → s ≠ "" →
        decodeResponse parse b64 r = Except.ok (jsonOrRaw parse s)) ∧
    (strOptTruthy r.SecretString = false →
      ∀ b, r.SecretBinary = some b → b ≠ "" →
        decodeResponse parse b64 r = Except.ok (jsonOrRaw parse (b64 b))) ∧
    (strOptTruthy r.SecretString = false → strOptTruthy r.SecretBinary = false →
        decodeResponse parse b64 r = Except.error "Secret value is empty" ∧
        (getSecret parse b64 (Except.ok r) name false c now).result =
          Except.error (mapSecretError name ⟨"Error", "Secret value is empty"⟩)) := by
  refine ⟨?_, ?_, ?_⟩
  · intro s hs hne
    simp [decodeResponse, strOptTruthy, hs, hne]
  · intro hstr b hb hne
    unfold decodeResponse
    rw [hstr, hb]
    simp [strOptTruthy, hne]
  · intro hstr hbin
    have hd : decodeResponse parse b64 r = (Except.error "Secret value is empty" :
        Except String (SecretVal J)) := by
      simp [decodeResponse, hstr, hbin]
    refine ⟨hd, ?_⟩
    rw [getSecret_false_eq]
    unfold fetchUpstream
    simp [hd]

/-- C3 witness: the three decode branches evaluated on concrete
responses — a textual payload, a binary payload, and an empty
response. -/
theorem c3_decode_order_witness :
    decodeResponse (fun _ => (none : Option Unit)) (fun _ => "a") ⟨some "t", none⟩
        = Except.ok (SecretVal.raw "t") ∧
    decodeResponse (fun _ => (none : Option Unit)) (fun _ => "a") ⟨none, some "YQ"⟩
        = Except.ok (SecretVal.raw "a") ∧
    decodeResponse (fun _ => (none : Option Unit)) (fun _ => "a")
        (⟨none, none⟩ : GetSecretValueResponse)
        = Except.error "Secret value is empty" := by
  refine ⟨?_, ?_, ?_⟩
  · exact (c3_decode_order (fun _ => (none : Option Unit)) (fun _ => "a")
      ⟨some "t", none⟩ "n" [] 0).1 "t" rfl (by decide)
  · exact (c3_decode_order (fun _ => (none : Option Unit)) (fun _ => "a")
      ⟨none, some "YQ"⟩ "n" [] 0).2.1 rfl "YQ" rfl (by decide)
  · exact ((c3_decode_order (fun _ => (none : Option Unit)) (fun _ => "a")
      (⟨none, none⟩ : GetSecretValueResponse) "n" [] 0).2.2 rfl rfl).1

/-- C9: cache invalidation is idempotent and total — deleting an
uncached name is a no-op, deleting twice equals deleting once,
clearing twice equals clearing once, and a deleted name is gone. -/
theorem c9_invalidate_idempotent {V : Type} (c : Cache V) (n : String) :
    (cacheGet c n = none → clearSecretCache c n = c) ∧
    clearSecretCache (clearSecretCache c n) n = clearSecretCache c n ∧
    clearCache (clearCache c) = clearCache c ∧
    cacheGet (clearSecretCache c n) n = none := by
  refine ⟨?_, ?_, rfl, ?_⟩
  · intro h
    have hall : ∀ p ∈ c, ¬ ((fun p => p.1 == n) p = true) := by
      have : c.find? (fun p => p.1 == n) = none := by
        simpa [cacheGet] using h
      exact List.find?_eq_none.mp this
    apply List.filter_eq_self.mpr
    intro p hp
    have := hall p hp
    simpa using this
  · simp [clearSecretCache, List.filter_filter]
  · have : (clearSecretCache c n).find? (fun p => p.1 == n) = none := by
      apply List.find?_eq_none.mpr
      intro p hp
      have := (List.mem_filter.mp hp).2
      simpa using this
    simp [cacheGet, this]

/-- C9 witness: invalidating a never-cached name on a concrete cache
raises no error and leaves the cache unchanged. -/
theorem c9_invalidate_idempotent_witness :
    clearSecretCache [("A", (⟨0, 3⟩ : CacheEntry Nat))] "never-cached"
        = [("A", (⟨0, 3⟩ : CacheEntry Nat))] ∧
    clearCache (clearCache [("A", (⟨0, 3⟩ : CacheEntry Nat))])
        = clearCache [("A", (⟨0, 3⟩ : CacheEntry Nat))] := by
  have h := c9_invalidate_idempotent [("A", (⟨0, 3⟩ : CacheEntry Nat))] "never-cached"
  exact ⟨h.1 (by decide), h.2.2.1⟩

/-- C10: at `GET /secrets/:name` the adapter receives
`useCache = false` exactly when the `useCache` query parameter is the
literal string `'false'`; any other value, or its absence, yields
`useCache = true`. -/
theorem c10_useCache_query_param (q : Option String) :
    useCacheOfQuery q = false ↔ q = some "false" := by
  cases q with
  | none => simp [useCacheOfQuery]
  | some s => simp [useCacheOfQuery]

/-- C1: the claim's 404 mapping does not hold in the code — the
adapter's not-found failure is a plain `Error` carrying no
`statusCode`/`status` field, so `errorHandler` falls back to its
default and answers 500 (the route's own Swagger annotation documents
404 for this case). -/
theorem c1_notfound_maps_to_500 :
    errorHandler (plainError (mapSecretError "db-creds"
        ⟨"ResourceNotFoundException", "ResourceNotFoundException"⟩))
      = (500, "Secret 'db-creds' not found") := by decide

/-- C8: the `POST /secrets/batch` guard — whenever the `names` body
field is not an array (including a missing field, i.e. `undefined`) or
is the empty array, the handler answers 400 with the error envelope
and never invokes the adapter's batch fetch. -/
theorem c8_batch_validation (names : JsVal) (u : Bool)
    (h : isArray names = false ∨ names = JsVal.arrV []) :
    batchHandler names u =
      BatchAction.badRequest 400
        "Request body must include a \"names\" array with at least one secret name" ∧
    ∀ l u2, batchHandler names u ≠ BatchAction.callAdapter l u2 := by
  have hb : batchHandler names u =
      BatchAction.badRequest 400
        "Request body must include a \"names\" array with at least one secret name" := by
    rcases h with h | h
    · cases names <;> simp_all [batchHandler, isArray, jsTruthy, arrLength]
    · subst h; rfl
  refine ⟨hb, ?_⟩
  intro l u2 hc
  rw [hb] at hc
  cases hc

/-- C8 witness: a body without a `names` field (destructured to
`undefined`) and a body with an empty `names` array both produce the
400 envelope. -/
theorem c8_batch_validation_witness :
    batchHandler JsVal.undefinedV true =
      BatchAction.badRequest 400
        "Request body must include a \"names\" array with at least one secret name" ∧
    batchHandler (JsVal.arrV []) true =
      BatchAction.badRequest 400
        "Request body must include a \"names\" array with at least one secret name" :=
  ⟨(c8_batch_validation JsVal.undefinedV true (Or.inl rfl)).1,
   (c8_batch_validation (JsVal.arrV []) true (Or.inr rfl)).1⟩

namespace SecretsAdapter

theorem mem_collectSettled_fst {J : Type} (fetch : String → Except String (SecretVal J))
    (names : List String) (n : String) (v : SecretVal J) :
    (n, v) ∈ (collectSettled fetch names).1 ↔ n ∈ names ∧ fetch n = Except.ok v := by
  induction names with
  | nil => simp [collectSettled]
  | cons a rest ih =>
    simp only [collectSettled]
    cases hf : fetch a with
    | ok w =>
      simp only [List.mem_cons, Prod.mk.injEq, ih]
      constructor
      · rintro (⟨rfl, rfl⟩ | ⟨hm, he⟩)
        · exact ⟨Or.inl rfl, hf⟩
        · exact ⟨Or.inr hm, he⟩
      · rintro ⟨(rfl | hm), he⟩
        · rw [hf] at he
          exact Or.inl ⟨rfl, (Except.ok.injEq _ _ ▸ he).symm⟩
        · exact Or.inr ⟨hm, he⟩
    | error m =>
      simp only [ih, List.mem_cons]
      constructor
      · rintro ⟨hm, he⟩
        exact ⟨Or.inr hm, he⟩
      · rintro ⟨(rfl | hm), he⟩
        · rw [hf] at he
          cases he
        · exact ⟨hm, he⟩

theorem mem_collectSettled_snd {J : Type} (fetch : String → Except String (SecretVal J))
    (names : List String) (n : String) (m : String) :
    (n, m) ∈ (collectSettled fetch names).2 ↔ n ∈ names ∧ fetch n = Except.error m := by
  induction names with
  | nil => simp [collectSettled]
  | cons a rest ih =>
    simp only [collectSettled]
    cases hf : fetch a with
    | ok w =>
      simp only [ih, List.mem_cons]
      constructor
      · rintro ⟨hm, he⟩
        exact ⟨Or.inr hm, he⟩
      · rintro ⟨(rfl | hm), he⟩
        · rw [hf] at he
          cases he
        · exact ⟨hm, he⟩
    | error m2 =>
      simp only [List.mem_cons, Prod.mk.injEq, ih]
      constructor
      · rintro (⟨rfl, rfl⟩ | ⟨hm, he⟩)
        · exact ⟨Or.inl rfl, hf⟩
        · exact ⟨Or.inr hm, he⟩
      · rintro ⟨(rfl | hm), he⟩
        · rw [hf] at he
          exact Or.inl ⟨rfl, (Except.error.injEq _ _ ▸ he).symm⟩
        · exact Or.inr ⟨hm, he⟩

theorem collectSettled_snd_nil_iff {J : Type} (fetch : String → Except String (SecretVal J))
    (names : List String) :
    (collectSettled fetch names).2 = [] ↔ ∀ n ∈ names, ∃ v, fetch n = Except.ok v := by
  induction names with
  | nil => simp [collectSettled]
  | cons a rest ih =>
    simp only [collectSettled]
    cases hf : fetch a with
    | ok w =>
      simp only [ih, List.mem_cons]
      constructor
      · rintro hall n (rfl | hm)
        · exact ⟨w, hf⟩
        · exact hall n hm
      · intro hall n hm
        exact hall n (Or.inr hm)
    | error m =>
      simp only [List.cons_ne_nil, false_iff]
      intro hall
      rcases hall a (List.mem_cons_self a rest) with ⟨v, hv⟩
      rw [hf] at hv
      cases hv

end SecretsAdapter

/-- C5: `getMultipleSecrets` settles every input name independently —
a name appears in `secrets` exactly when its own fetch succeeded with
that value, a name appears in the error map exactly when its own fetch
failed with that message, and the `errors` field is absent exactly
when every input name succeeded. -/
theorem c5_batch_collection {J : Type} (fetch : String → Except String (SecretVal J))
    (names : List String) :
    (∀ n v, (n, v) ∈ (getMultipleSecrets fetch names).secrets ↔
        n ∈ names ∧ fetch n = Except.ok v) ∧
    (∀ es, (getMultipleSecrets fetch names).errors = some es →
        ∀ n m, ((n, m) ∈ es ↔ n ∈ names ∧ fetch n = Except.error m)) ∧
    ((getMultipleSecrets fetch names).errors = none ↔
        ∀ n ∈ names, ∃ v, fetch n = Except.ok v) := by
  refine ⟨?_, ?_, ?_⟩
  · intro n v
    exact mem_collectSettled_fst fetch names n v
  · intro es hes n m
    have : es = (collectSettled fetch names).2 := by
      by_cases hl : (collectSettled fetch names).2.length > 0
      · simp only [getMultipleSecrets, hl, if_pos] at hes
        exact (Option.some.injEq _ _ ▸ hes).symm
      · simp only [getMultipleSecrets, hl, if_neg] at hes
        cases hes
    rw [this]
    exact mem_collectSettled_snd fetch names n m
  · rw [← collectSettled_snd_nil_iff fetch names]
    constructor
    · intro h
      by_cases hl : (collectSettled fetch names).2.length > 0
      · simp only [getMultipleSecrets, hl, if_pos] at h
        cases h
      · exact List.length_eq_zero.mp (by omega)
    · intro h
      simp [getMultipleSecrets, h]

/-- C5 witness: with name "A" existing and "B" missing,
`getMultipleSecrets(["A","B"])` collects "A" into `secrets` and "B"
into the present error map. -/
theorem c5_batch_collection_witness :
    (("A", (SecretVal.raw "va" : SecretVal Unit)) ∈ (getMultipleSecrets
        (fun n => if n = "A" then Except.ok (SecretVal.raw "va" : SecretVal Unit)
                  else Except.error ("Secret '" ++ n ++ "' not found"))
        ["A", "B"]).secrets) ∧
    (∀ es, (getMultipleSecrets
        (fun n => if n = "A" then Except.ok (SecretVal.raw "va" : SecretVal Unit)
                  else Except.error ("Secret '" ++ n ++ "' not found"))
        ["A", "B"]).errors = some es → ("B", "Secret 'B' not found") ∈ es) := by
  have h := c5_batch_collection
    (fun n => if n = "A" then Except.ok (SecretVal.raw "va" : SecretVal Unit)
              else Except.error ("Secret '" ++ n ++ "' not found"))
    ["A", "B"]
  constructor
  · exact (h.1 "A" (SecretVal.raw "va")).mpr ⟨by decide, rfl⟩
  · intro es hes
    exact ((h.2.1 es hes) "B" "Secret 'B' not found").mpr ⟨by decide, rfl⟩

/-- C6: upstream failures are never swallowed — `getSecret` re-raises
every upstream error through `mapSecretError`; the messages for the
four kinds (mapped respectively from `ResourceNotFoundException`,
`AccessDeniedException`, `DecryptionFailureException`, and any other
identifier) each contain the offending secret name and are pairwise
distinct, so the caller can tell the kinds apart. -/
theorem c6_error_taxonomy {J : Type} (parse : String → Option J) (b64 : String → String)
    (name : String) (e : UpstreamError) (c : Cache (SecretVal J)) (now : Nat) :
    (getSecret parse b64 (Except.error e) name false c now).result
        = Except.error (mapSecretError name e) ∧
    (∃ p q, mapSecretError name ⟨"ResourceNotFoundException", e.message⟩ = p ++ name ++ q) ∧
    (∃ p q, mapSecretError name ⟨"AccessDeniedException", e.message⟩ = p ++ name ++ q) ∧
    (∃ p q, mapSecretError name ⟨"DecryptionFailureException", e.message⟩ = p ++ name ++ q) ∧
    (e.name ≠ "ResourceNotFoundException" → e.name ≠ "AccessDeniedException" →
      e.name ≠ "DecryptionFailureException" →
      mapSecretError name e = "Failed to retrieve secret '" ++ name ++ "': " ++ e.message ∧
      ∃ p q, mapSecretError name e = p ++ name ++ q) ∧
    (mapSecretError name ⟨"ResourceNotFoundException", e.message⟩ ≠
        mapSecretError name ⟨"AccessDeniedException", e.message⟩ ∧
      mapSecretError name ⟨"ResourceNotFoundException", e.message⟩ ≠
        mapSecretError name ⟨"DecryptionFailureException", e.message⟩ ∧
      mapSecretError name ⟨"ResourceNotFoundException", e.message⟩ ≠
        "Failed to retrieve secret '" ++ name ++ "': " ++ e.message ∧
      mapSecretError name ⟨"AccessDeniedException", e.message⟩ ≠
        mapSecretError name ⟨"DecryptionFailureException", e.message⟩ ∧
      mapSecretError name ⟨"AccessDeniedException", e.message⟩ ≠
        "Failed to retrieve secret '" ++ name ++ "': " ++ e.message ∧
      mapSecretError name ⟨"DecryptionFailureException", e.message⟩ ≠
        "Failed to retrieve secret '" ++ name ++ "': " ++ e.message) := by
  have h1 : mapSecretError name ⟨"ResourceNotFoundException", e.message⟩
      = "Secret '" ++ name ++ "' not found" := by
    simp [mapSecretError]
  have h2 : mapSecretError name ⟨"AccessDeniedException", e.message⟩
      = "Access denied to secret '" ++ name ++ "'. Check IAM role permissions." := by
    simp [mapSecretError]
  have h3 : mapSecretError name ⟨"DecryptionFailureException", e.message⟩
      = "Failed to decrypt secret '" ++ name ++ "'" := by
    simp [mapSecretError]
  refine ⟨?_, ?_, ?_, ?_, ?_, ?_⟩
  · rw [getSecret_false_eq]
    rfl
  · exact ⟨"Secret '", "' not found", h1⟩
  · exact ⟨"Access denied to secret '", "'. Check IAM role permissions.", h2⟩
  · exact ⟨"Failed to decrypt secret '", "'", h3⟩
  · intro hn1 hn2 hn3
    have h4 : mapSecretError name e
        = "Failed to retrieve secret '" ++ name ++ "': " ++ e.message := by
      simp [mapSecretError, hn1, hn2, hn3]
    exact ⟨h4, "Failed to retrieve secret '", "': " ++ e.message, by rw [h4, String.append_assoc]⟩
  · rw [h1, h2, h3]
    refine ⟨?_, ?_, ?_, ?_, ?_, ?_⟩ <;>
      · intro h
        have hd := congrArg String.data h
        simp [String.data_append] at hd

/-- C6 witness: a concrete throttling failure is re-raised as the
generic wrapped message containing the secret name, and the not-found
message differs from the access-denied message. -/
theorem c6_error_taxonomy_witness :
    (mapSecretError "db-creds" ⟨"ThrottlingException", "rate exceeded"⟩
        = "Failed to retrieve secret 'db-creds': rate exceeded") ∧
    mapSecretError "db-creds" ⟨"ResourceNotFoundException", "rate exceeded"⟩ ≠
      mapSecretError "db-creds" ⟨"AccessDeniedException", "rate exceeded"⟩ := by
  have h := c6_error_taxonomy (fun _ => (none : Option Unit)) id "db-creds"
    ⟨"ThrottlingException", "rate exceeded"⟩ ([] : Cache (SecretVal Unit)) 0
  exact ⟨(h.2.2.2.2.1 (by decide) (by decide) (by decide)).1, h.2.2.2.2.2.1⟩

/-- C10 witness: only the literal string `'false'` turns the cache
off. -/
theorem c10_useCache_query_param_witness :
    useCacheOfQuery (some "false") = false :=
  (c10_useCache_query_param (some "false")).mpr rfl
